import Mathlib

/-!
Verification of the Pseudonymous Bonding and Accountability Engine of the
selectConnect repository against its natural-language specification.

The definitions below are a shallow embedding of the relevant repository
code:

* `generateSenderCommitment` — `src/relay/RelayService.ts`, lines 32-36.
* The escrow bond state machine (`BondState`, `slashBond`) — the Compact
  circuit shown in `src/TUTORIAL.md`, lines 359-385, together with the
  `BondState` enum of the type definitions file (`src/unnamed/part_002`).
* `attestAbuse`, `isRateLimited`, `getRateLimitRetryTime`,
  `getRequiredBondAmountOld` — `src/relay/RelayService_Old.ts` (the same
  text appears in `src/unnamed/part_001`).
* `verifyBondForMessage`, `forwardMessage`, `getRequiredBondAmount` —
  `src/relay/RelayService.ts`.
* `refundBond` — the circuit is absent from the sources (only its callers
  appear), so it is modelled from the specification; see its doc comment.

Cryptographic hash functions (sha256, hmac) are modelled as abstract
function parameters: equal inputs give equal outputs by purity, and
collision-freeness is an explicit hypothesis where a theorem needs it.
External stores (Redis, the on-chain contract) are modelled as explicit
state or as fallible (`Except`-valued) oracle fields, so that thrown
exceptions of the TypeScript code become `Except.error` values.
-/

namespace SelectConnect

/-! ## Commitment deriver (RelayService.ts lines 32-41)

`generateSenderCommitment(cardId, senderDid, salt)` returns
`sha256(cardId + senderDid + salt)` in hex.  The hash is passed as an
abstract function argument. -/

def generateSenderCommitment (sha256hex : String → String)
    (cardId senderDid salt : String) : String :=
  sha256hex (cardId ++ senderDid ++ salt)

/-! ## Escrow bond state machine

`BondState` from the type definitions (`src/unnamed/part_002`, lines
155-159) has exactly three states: ACTIVE (called POSTED by the circuit in
`src/TUTORIAL.md`), REFUNDED and SLASHED.  There is no FROZEN and no
EXPIRED state anywhere in the sources. -/

inductive BondState where
  | POSTED
  | REFUNDED
  | SLASHED
deriving DecidableEq, Repr

structure BondMeta where
  cardId : String
  senderCommit : String
  amount : Nat
  postedAt : Nat
  expiresAt : Nat
  state : BondState
deriving DecidableEq, Repr

structure Reputation where
  totalBonds : Nat
  slashedCount : Nat
deriving DecidableEq, Repr

/-- Ledger state of the AbuseEscrow contract: the `bond_meta`,
`sender_reputation`, `safety_pools` and `slashed_bonds` collections of the
Compact circuit in TUTORIAL.md, plus the card-admin relation consulted by
`requireCardAdmin`. -/
structure EscrowState where
  bond_meta : String → Option BondMeta
  sender_reputation : String → Reputation
  safety_pools : String → Nat
  slashed_bonds : List (String × String)
  card_admins : String → String → Bool

inductive SlashError where
  | NotFound
  | NotAdmin
  | InvalidState
deriving DecidableEq, Repr

/-- The `slashBond` circuit of `src/TUTORIAL.md` lines 359-385: look up the
bond, require the caller to be the card admin, require
`state == BondState::POSTED`, then mark the bond SLASHED, increment the
sender reputation slashed count, add the bond amount to the safety pool of
the card, and record the evidence hash. -/
def slashBond (st : EscrowState) (caller bondId evidenceHash : String) :
    Except SlashError EscrowState :=
  match st.bond_meta bondId with
  | none => Except.error SlashError.NotFound
  | some b =>
    if st.card_admins b.cardId caller = false then
      Except.error SlashError.NotAdmin
    else if b.state = BondState.POSTED then
      Except.ok
        { st with
          bond_meta := fun k =>
            if k = bondId then some { b with state := BondState.SLASHED }
            else st.bond_meta k
          sender_reputation := fun k =>
            if k = b.senderCommit then
              { st.sender_reputation k with
                slashedCount := (st.sender_reputation k).slashedCount + 1 }
            else st.sender_reputation k
          safety_pools := fun k =>
            if k = b.cardId then st.safety_pools k + b.amount
            else st.safety_pools k
          slashed_bonds := (bondId, evidenceHash) :: st.slashed_bonds }
    else
      Except.error SlashError.InvalidState

/-- A concrete 5-unit POSTED bond used to evaluate the theorems. -/
def sampleBond : BondMeta :=
  { cardId := "card1", senderCommit := "sender1", amount := 5,
    postedAt := 0, expiresAt := 100, state := BondState.POSTED }

/-- A concrete escrow state holding `sampleBond` under id "bond1", with
"alice" as the admin of "card1". -/
def sampleEscrow : EscrowState :=
  { bond_meta := fun k => if k = "bond1" then some sampleBond else none
    sender_reputation := fun _ => { totalBonds := 1, slashedCount := 0 }
    safety_pools := fun _ => 0
    slashed_bonds := []
    card_admins := fun c a => c == "card1" && a == "alice" }

/-- C1 counterexample: slashing a POSTED bond does not return
InvalidTransition with the state unchanged — it succeeds outright and the
bond lands in SLASHED, with no prior freeze.  Evaluated on the concrete
escrow state `sampleEscrow` whose bond "bond1" is POSTED. -/
theorem slashBond_succeeds_directly_from_POSTED :
    ((slashBond sampleEscrow "alice" "bond1" "ev1").toOption.map
      (fun st => (st.bond_meta "bond1").map BondMeta.state))
        = some (some BondState.SLASHED)
    ∧ sampleBond.state = BondState.POSTED := by
  constructor
  · rfl
  · rfl

/-- C1 (amended): in the code there is no FROZEN state; SLASHED is reached
directly from POSTED.  For a bond that exists and whose card admin is the
caller, `slashBond` succeeds exactly when the bond is POSTED, and from the
terminal states REFUNDED and SLASHED it fails (the state requirement of
the circuit is violated) leaving the caller with an error and the ledger
untouched. -/
theorem slashBond_succeeds_iff_POSTED (st : EscrowState)
    (caller bondId evidenceHash : String) (b : BondMeta)
    (hb : st.bond_meta bondId = some b)
    (hadmin : st.card_admins b.cardId caller = true) :
    ((slashBond st caller bondId evidenceHash).isOk = true
        ↔ b.state = BondState.POSTED)
    ∧ (b.state ≠ BondState.POSTED →
        slashBond st caller bondId evidenceHash
          = Except.error SlashError.InvalidState) := by
  unfold slashBond
  rw [hb]
  simp only [hadmin]
  by_cases hs : b.state = BondState.POSTED
  · simp [hs, Except.isOk, Except.toBool]
  · simp [hs, Except.isOk, Except.toBool]

/-- Witness for C1 (amended) at the concrete state `sampleEscrow`. -/
theorem slashBond_succeeds_iff_POSTED_witness :
    ((slashBond sampleEscrow "alice" "bond1" "ev1").isOk = true
        ↔ sampleBond.state = BondState.POSTED)
    ∧ (sampleBond.state ≠ BondState.POSTED →
        slashBond sampleEscrow "alice" "bond1" "ev1"
          = Except.error SlashError.InvalidState) :=
  slashBond_succeeds_iff_POSTED sampleEscrow "alice" "bond1" "ev1" sampleBond
    (by rfl) (by rfl)

/-- C5: slashing a bond of amount A (possible exactly from POSTED, after
the scheduled slash job fires) marks the bond SLASHED, increments the
sender reputation slashedCount by exactly 1, and increases the safety pool
balance keyed by the card (context) of the bond by exactly A. -/
theorem slashBond_effects (st : EscrowState)
    (caller bondId evidenceHash : String) (b : BondMeta)
    (hb : st.bond_meta bondId = some b)
    (hadmin : st.card_admins b.cardId caller = true)
    (hposted : b.state = BondState.POSTED) :
    ((slashBond st caller bondId evidenceHash).toOption.map
        (fun s => s.bond_meta bondId))
      = some (some { b with state := BondState.SLASHED })
    ∧ ((slashBond st caller bondId evidenceHash).toOption.map
        (fun s => (s.sender_reputation b.senderCommit).slashedCount))
      = some ((st.sender_reputation b.senderCommit).slashedCount + 1)
    ∧ ((slashBond st caller bondId evidenceHash).toOption.map
        (fun s => s.safety_pools b.cardId))
      = some (st.safety_pools b.cardId + b.amount) := by
  unfold slashBond
  rw [hb]
  simp [hadmin, hposted, Except.toOption]

/-- Witness for C5 at the concrete 5-unit bond of `sampleEscrow`: the
safety pool of "card1" goes from 0 to 5 and the slashed count from 0
to 1. -/
theorem slashBond_effects_witness :
    ((slashBond sampleEscrow "alice" "bond1" "ev1").toOption.map
        (fun s => s.bond_meta "bond1"))
      = some (some { sampleBond with state := BondState.SLASHED })
    ∧ ((slashBond sampleEscrow "alice" "bond1" "ev1").toOption.map
        (fun s => (s.sender_reputation "sender1").slashedCount))
      = some ((sampleEscrow.sender_reputation "sender1").slashedCount + 1)
    ∧ ((slashBond sampleEscrow "alice" "bond1" "ev1").toOption.map
        (fun s => s.safety_pools "card1"))
      = some (sampleEscrow.safety_pools "card1" + 5) :=
  slashBond_effects sampleEscrow "alice" "bond1" "ev1" sampleBond
    (by rfl) (by rfl) (by rfl)

/-! ## Determinism and context separation of the commitment (C6) -/

/-- C6: `generateSenderCommitment` is deterministic (two calls with equal
inputs return the same value, since it is a pure function of its inputs)
and context-separating: for a fixed identity and salt, two distinct card
ids give distinct commitments, provided the underlying sha256 does not
collide on the two derived input strings (stated as injectivity of the
abstract hash).  Distinctness of the hash inputs themselves is
unconditional, by cancellation of the common suffix. -/
theorem generateSenderCommitment_deterministic_separating
    (sha256hex : String → String) (hinj : Function.Injective sha256hex)
    (c1 c2 senderDid salt : String) (hne : c1 ≠ c2) :
    generateSenderCommitment sha256hex c1 senderDid salt
      = generateSenderCommitment sha256hex c1 senderDid salt
    ∧ generateSenderCommitment sha256hex c1 senderDid salt
      ≠ generateSenderCommitment sha256hex c2 senderDid salt := by
  refine ⟨rfl, fun h => hne ?_⟩
  have h2 := hinj h
  have h3 : c1.data ++ (senderDid ++ salt).data
      = c2.data ++ (senderDid ++ salt).data := by
    have := congrArg String.data h2
    simpa [String.data_append] using this
  have h4 : c1.data = c2.data := List.append_cancel_right h3
  cases c1
  cases c2
  exact congrArg String.mk (by simpa using h4)

/-- Witness for C6: the identity function is injective, and the contexts
"cardA" and "cardB" give different commitments for the same identity and
salt. -/
theorem generateSenderCommitment_witness :
    generateSenderCommitment id "cardA" "did1" "salt1"
      = generateSenderCommitment id "cardA" "did1" "salt1"
    ∧ generateSenderCommitment id "cardA" "did1" "salt1"
      ≠ generateSenderCommitment id "cardB" "did1" "salt1" :=
  generateSenderCommitment_deterministic_separating id
    (fun _ _ h => h) "cardA" "cardB" "did1" "salt1" (by decide)

/-! ## Required bond amount (C4)

The relay exposes `getRequiredBondAmount(cardId, senderCommit)`.  The
version in `RelayService.ts` (lines 301-304) returns the constant
"3000000" (3 ADA in lovelace).  The version in `RelayService_Old.ts`
(lines 649-659) queries the card policy and returns its
`requiredBondAmount` field, falling back to "1000000" when the field is
absent or the lookup throws.  Neither takes the sender reputation into
account. -/

def getRequiredBondAmount (cardId senderCommit : String) : String :=
  "3000000"

structure CardPolicy where
  requiredBondAmount : Option String
deriving DecidableEq, Repr

def getRequiredBondAmountOld (lookup : Except Unit CardPolicy) : String :=
  match lookup with
  | Except.error _ => "1000000"
  | Except.ok p =>
    match p.requiredBondAmount with
    | none => "1000000"
    | some s => s

/-- C4 counterexample: for a sender with slashedCount = 2 querying a
context with base minimum 10, the required amount returned by the code is
the constant "3000000", not 30 — the function does not even receive the
reputation or the base minimum. -/
theorem getRequiredBondAmount_not_reputation_priced :
    getRequiredBondAmount "context-base-min-10" "sender-slashed-twice"
      = "3000000"
    ∧ ("3000000" : String) ≠ "30" := by
  exact ⟨rfl, by decide⟩

/-- C4 (amended): the required bond amount is independent of the sender
and of any reputation: `RelayService.ts` returns the constant "3000000"
for every input (hence is trivially monotone in the slash history), and
`RelayService_Old.ts` returns the card policy value, or "1000000" when the
policy lookup fails or carries no amount. -/
theorem getRequiredBondAmount_constant (c1 s1 c2 s2 amt : String) :
    getRequiredBondAmount c1 s1 = "3000000"
    ∧ getRequiredBondAmount c1 s1 = getRequiredBondAmount c2 s2
    ∧ getRequiredBondAmountOld (Except.error ()) = "1000000"
    ∧ getRequiredBondAmountOld
        (Except.ok { requiredBondAmount := none }) = "1000000"
    ∧ getRequiredBondAmountOld
        (Except.ok { requiredBondAmount := some amt }) = amt :=
  ⟨rfl, rfl, rfl, rfl, rfl⟩

/-! ## Abuse attestation and slash scheduling (C2)

Embedding of `attestAbuse` from `RelayService_Old.ts` lines 423-512 (the
same text is `src/unnamed/part_001` lines 403-487).  The Bull job queue
and the Redis attestation records are explicit state; the authorization
check (`verifyAttestorAuthorization`, an external contract call) and
sha256 are oracle fields of the configuration.  Times are in
milliseconds, as in the source. -/

/-- A job on the persistent Bull slashing queue, with the job options of
the source: due delay, attempt budget, and backoff policy
(`attempts: 3, backoff: type exponential, delay 2000`). -/
structure SlashJob where
  bondId : String
  evidenceHash : String
  senderCommit : String
  cardId : String
  attestationId : String
  attestor : String
  delay : Int
  attempts : Nat
  backoffType : String
  backoffDelay : Nat
deriving DecidableEq, Repr

structure AttestationRecord where
  bondId : String
  evidenceHash : String
  attestor : String
  challengeEndTime : Nat
  cardId : String
  senderCommit : String
  timestamp : Nat
deriving DecidableEq, Repr

/-- Relay-side state: the persistent slashing queue, the stored
attestation records (key, TTL seconds, record), and the escrow ledger the
relay talks to. -/
structure RelayState where
  queue : List SlashJob
  attestations : List (String × Nat × AttestationRecord)
  escrow : EscrowState

structure RelayConfig where
  sha256hex : String → String
  authorize : String → String → Bool

/-- Function `getBondId(cardId, senderCommit)` of RelayService_Old.ts: the sha256
of "cardId:senderCommit:now". -/
def getBondId (cfg : RelayConfig) (now : Nat)
    (cardId senderCommit : String) : String :=
  cfg.sha256hex (cardId ++ ":" ++ senderCommit ++ ":" ++ toString now)

/-- Function `generateAttestationId(bondId, evidenceHash, attestor)`: the sha256 of
"bondId:evidenceHash:attestor:now". -/
def generateAttestationId (cfg : RelayConfig) (now : Nat)
    (bondId evidenceHash attestor : String) : String :=
  cfg.sha256hex
    (bondId ++ ":" ++ evidenceHash ++ ":" ++ attestor ++ ":" ++ toString now)

structure AttestationResult where
  attestationId : String
  challengeEndTime : Nat
  bondId : String
deriving DecidableEq, Repr

inductive AttestError where
  | UNAUTHORIZED_ATTESTOR
deriving DecidableEq, Repr

/-- Function `attestAbuse(cardId, senderCommit, evidenceHash, attestor,
challengeWindowHours)`: checks attestor authorization; on failure returns
UNAUTHORIZED_ATTESTOR.  On success it computes the bond id, sets
challengeEndTime = now + challengeWindowHours hours, generates an
attestation id, adds a slash job to the persistent queue with delay
challengeEndTime - now, 3 attempts and exponential backoff with base
delay 2000 ms, stores the attestation record with a TTL of the challenge
window plus 24 hours, and returns the attestation id, challenge end time
and bond id.  Note that no bond is frozen: the escrow ledger is not
touched. -/
def attestAbuse (cfg : RelayConfig) (st : RelayState) (now : Nat)
    (cardId senderCommit evidenceHash attestor : String)
    (challengeWindowHours : Nat) :
    Except AttestError (AttestationResult × RelayState) :=
  if cfg.authorize cardId attestor = false then
    Except.error AttestError.UNAUTHORIZED_ATTESTOR
  else
    let bondId := getBondId cfg now cardId senderCommit
    let challengeEndTime := now + challengeWindowHours * 60 * 60 * 1000
    let attestationId :=
      generateAttestationId cfg now bondId evidenceHash attestor
    let job : SlashJob :=
      { bondId := bondId, evidenceHash := evidenceHash,
        senderCommit := senderCommit, cardId := cardId,
        attestationId := attestationId, attestor := attestor,
        delay := (challengeEndTime : Int) - (now : Int), attempts := 3,
        backoffType := "exponential", backoffDelay := 2000 }
    let record : AttestationRecord :=
      { bondId := bondId, evidenceHash := evidenceHash,
        attestor := attestor, challengeEndTime := challengeEndTime,
        cardId := cardId, senderCommit := senderCommit, timestamp := now }
    Except.ok
      ({ attestationId := attestationId,
         challengeEndTime := challengeEndTime, bondId := bondId },
       { st with
         queue := st.queue ++ [job]
         attestations :=
           ("attestation:" ++ attestationId,
            challengeWindowHours * 3600 + 86400, record)
             :: st.attestations })

/-- A concrete relay configuration where every attestor is authorized and
the hash is the identity function. -/
def sampleConfig : RelayConfig :=
  { sha256hex := id, authorize := fun _ _ => true }

/-- A concrete relay state sitting on top of `sampleEscrow`. -/
def sampleRelay : RelayState :=
  { queue := [], attestations := [], escrow := sampleEscrow }

/-- C2 counterexample: a successful `attestAbuse` by an authorized
attestor performs no freeze — the escrow ledger of the resulting state is
the initial one, and the bond of the sender is still POSTED, contradicting
the claim that the attestation path calls `freezeBond` on that bond.
(The `freezeBond` of RelayService.ts is a logging stub, and
`attestAbuse` never invokes it.) -/
theorem attestAbuse_does_not_freeze :
    ((attestAbuse sampleConfig sampleRelay 1000 "card1" "sender1" "ev1"
        "alice" 24).toOption.map
      (fun r => r.2.escrow.bond_meta "bond1"))
      = some (some sampleBond)
    ∧ ((attestAbuse sampleConfig sampleRelay 1000 "card1" "sender1" "ev1"
        "alice" 24).toOption.map (fun r => r.2.escrow))
      = some sampleRelay.escrow
    ∧ sampleBond.state = BondState.POSTED := by
  exact ⟨rfl, rfl, rfl⟩

/-- C2 (amended): with an attestor outside the admin/guardian
authorization set, `attestAbuse` fails with UNAUTHORIZED_ATTESTOR (and,
the result being an error, no scheduling happens); with an authorized
attestor it computes challengeEndTime = now + challengeWindowHours hours,
appends to the durable queue a slash job due after exactly that delay
with 3 attempts and exponential backoff, stores the attestation record
with a TTL of the challenge window plus 24 hours, and returns the
attestation identifier — but it does not freeze the bond: the escrow
ledger is unchanged. -/
theorem attestAbuse_behavior (cfg : RelayConfig) (st : RelayState)
    (now : Nat) (cardId senderCommit evidenceHash attestor : String)
    (hours : Nat) :
    (cfg.authorize cardId attestor = false →
      attestAbuse cfg st now cardId senderCommit evidenceHash attestor hours
        = Except.error AttestError.UNAUTHORIZED_ATTESTOR)
    ∧ (cfg.authorize cardId attestor = true →
      ((attestAbuse cfg st now cardId senderCommit evidenceHash attestor
          hours).toOption.map (fun r => r.1.challengeEndTime))
        = some (now + hours * 60 * 60 * 1000)
      ∧ ((attestAbuse cfg st now cardId senderCommit evidenceHash attestor
          hours).toOption.map (fun r => r.1.attestationId))
        = some (generateAttestationId cfg now
            (getBondId cfg now cardId senderCommit) evidenceHash attestor)
      ∧ ((attestAbuse cfg st now cardId senderCommit evidenceHash attestor
          hours).toOption.map (fun r => r.2.queue))
        = some (st.queue ++
            [{ bondId := getBondId cfg now cardId senderCommit,
               evidenceHash := evidenceHash, senderCommit := senderCommit,
               cardId := cardId,
               attestationId := generateAttestationId cfg now
                 (getBondId cfg now cardId senderCommit) evidenceHash
                 attestor,
               attestor := attestor,
               delay := ((now + hours * 60 * 60 * 1000 : Nat) : Int)
                 - (now : Int),
               attempts := 3,
               backoffType := "exponential", backoffDelay := 2000 }])
      ∧ ((attestAbuse cfg st now cardId senderCommit evidenceHash attestor
          hours).toOption.map (fun r => r.2.attestations))
        = some (("attestation:" ++ generateAttestationId cfg now
              (getBondId cfg now cardId senderCommit) evidenceHash attestor,
            hours * 3600 + 86400,
            { bondId := getBondId cfg now cardId senderCommit,
              evidenceHash := evidenceHash, attestor := attestor,
              challengeEndTime := now + hours * 60 * 60 * 1000,
              cardId := cardId, senderCommit := senderCommit,
              timestamp := now })
            :: st.attestations)
      ∧ ((attestAbuse cfg st now cardId senderCommit evidenceHash attestor
          hours).toOption.map (fun r => r.2.escrow))
        = some st.escrow) := by
  constructor
  · intro hauth
    unfold attestAbuse
    simp [hauth]
  · intro hauth
    unfold attestAbuse
    rw [hauth]
    exact ⟨rfl, rfl, rfl, rfl, rfl⟩

/-- Witness for C2 (amended) at the concrete authorized configuration. -/
theorem attestAbuse_behavior_witness :
    ((attestAbuse sampleConfig sampleRelay 1000 "card1" "sender1" "ev1"
        "alice" 24).toOption.map (fun r => r.1.challengeEndTime))
      = some (1000 + 24 * 60 * 60 * 1000)
    ∧ ((attestAbuse sampleConfig sampleRelay 1000 "card1" "sender1" "ev1"
        "alice" 24).toOption.map (fun r => r.1.attestationId))
      = some (generateAttestationId sampleConfig 1000
          (getBondId sampleConfig 1000 "card1" "sender1") "ev1" "alice")
    ∧ ((attestAbuse sampleConfig sampleRelay 1000 "card1" "sender1" "ev1"
        "alice" 24).toOption.map (fun r => r.2.queue))
      = some (sampleRelay.queue ++
          [{ bondId := getBondId sampleConfig 1000 "card1" "sender1",
             evidenceHash := "ev1", senderCommit := "sender1",
             cardId := "card1",
             attestationId := generateAttestationId sampleConfig 1000
               (getBondId sampleConfig 1000 "card1" "sender1") "ev1"
               "alice",
             attestor := "alice",
             delay := ((1000 + 24 * 60 * 60 * 1000 : Nat) : Int)
               - ((1000 : Nat) : Int),
             attempts := 3,
             backoffType := "exponential", backoffDelay := 2000 }])
    ∧ ((attestAbuse sampleConfig sampleRelay 1000 "card1" "sender1" "ev1"
        "alice" 24).toOption.map (fun r => r.2.attestations))
      = some (("attestation:" ++ generateAttestationId sampleConfig 1000
            (getBondId sampleConfig 1000 "card1" "sender1") "ev1" "alice",
          24 * 3600 + 86400,
          { bondId := getBondId sampleConfig 1000 "card1" "sender1",
            evidenceHash := "ev1", attestor := "alice",
            challengeEndTime := 1000 + 24 * 60 * 60 * 1000,
            cardId := "card1", senderCommit := "sender1",
            timestamp := 1000 })
          :: sampleRelay.attestations)
    ∧ ((attestAbuse sampleConfig sampleRelay 1000 "card1" "sender1" "ev1"
        "alice" 24).toOption.map (fun r => r.2.escrow))
      = some sampleRelay.escrow :=
  (attestAbuse_behavior sampleConfig sampleRelay 1000 "card1" "sender1"
    "ev1" "alice" 24).2 (by rfl)

/-! ## Refund idempotence (C3) -/

/-- The bond states of the specification state machine (section 3), which
the modelled `refundBond` ranges over. -/
inductive SpecBondState where
  | POSTED
  | FROZEN
  | REFUNDED
  | SLASHED
  | EXPIRED
deriving DecidableEq, Repr

inductive LedgerError where
  | NotFound
  | InvalidTransition
deriving DecidableEq, Repr

structure SpecLedger where
  bonds : String → Option SpecBondState

/-- Modelled from the spec: the Bond Ledger refundBond circuit is not
present in the repository sources — only its callers are
(`handleRecipientEngagement` in the relay services and
`MeshMidnightBridge.refundBond` in `src/lib/mesh-connector.ts`, both of
which invoke the external contract).  Section 4.2 of the spec defines it:
legal only from POSTED or FROZEN (dispute-upheld path) or EXPIRED, moving
the bond to REFUNDED; refunding an already-REFUNDED bond is a no-op
success; any other state (that is, SLASHED) fails with InvalidTransition. -/
def refundBond (st : SpecLedger) (bondId : String) :
    Except LedgerError SpecLedger :=
  match st.bonds bondId with
  | none => Except.error LedgerError.NotFound
  | some s =>
    match s with
    | SpecBondState.POSTED | SpecBondState.FROZEN | SpecBondState.EXPIRED =>
        Except.ok
          { bonds := fun k =>
              if k = bondId then some SpecBondState.REFUNDED
              else st.bonds k }
    | SpecBondState.REFUNDED => Except.ok st
    | SpecBondState.SLASHED => Except.error LedgerError.InvalidTransition

/-- C3: `refundBond` is idempotent.  From a legal starting state (POSTED,
FROZEN or EXPIRED) the first call succeeds and moves the bond to REFUNDED,
and a second call returns the very same successful result, so calling
twice transitions the state exactly once with both calls succeeding.
Refunding an already-REFUNDED bond is a no-op success, and refunding from
the only remaining state, SLASHED, fails with InvalidTransition. -/
theorem refundBond_idempotent (st : SpecLedger) (bondId : String)
    (s : SpecBondState) (hb : st.bonds bondId = some s) :
    ((s = SpecBondState.POSTED ∨ s = SpecBondState.FROZEN
        ∨ s = SpecBondState.EXPIRED) →
      ((refundBond st bondId).toOption.map (fun t => t.bonds bondId))
        = some (some SpecBondState.REFUNDED)
      ∧ (refundBond st bondId).bind (fun t => refundBond t bondId)
        = refundBond st bondId)
    ∧ (s = SpecBondState.REFUNDED → refundBond st bondId = Except.ok st)
    ∧ (s = SpecBondState.SLASHED →
        refundBond st bondId = Except.error LedgerError.InvalidTransition) := by
  refine ⟨fun hleg => ?_, fun hr => ?_, fun hs => ?_⟩
  · have hres : refundBond st bondId
        = Except.ok { bonds := fun k =>
            if k = bondId then some SpecBondState.REFUNDED
            else st.bonds k } := by
      unfold refundBond
      rw [hb]
      rcases hleg with h | h | h <;> rw [h]
    constructor
    · rw [hres]
      simp [Except.toOption]
    · rw [hres]
      show refundBond _ bondId = _
      unfold refundBond
      simp
  · unfold refundBond
    rw [hb, hr]
  · unfold refundBond
    rw [hb, hs]

/-- A concrete one-bond ledger whose bond "b1" is POSTED. -/
def sampleLedger : SpecLedger :=
  { bonds := fun k => if k = "b1" then some SpecBondState.POSTED else none }

/-- Witness for C3 at the concrete ledger `sampleLedger`. -/
theorem refundBond_idempotent_witness :
    ((refundBond sampleLedger "b1").toOption.map (fun t => t.bonds "b1"))
      = some (some SpecBondState.REFUNDED)
    ∧ (refundBond sampleLedger "b1").bind (fun t => refundBond t "b1")
      = refundBond sampleLedger "b1" :=
  (refundBond_idempotent sampleLedger "b1" SpecBondState.POSTED
    (by simp [sampleLedger])).1 (Or.inl rfl)

/-! ## Rate limiter (C7, C8, C10)

Embedding of `isRateLimited` and `getRateLimitRetryTime` from
`RelayService_Old.ts` lines 542-590 (`src/unnamed/part_001` lines
523-569).  The Redis backend is modelled as a keyed map of window
counters with absolute expiry (Redis deletes keys at expiry, so an
expired or absent key reads as the string "0"), plus two fault flags
describing whether the read (`redis.get` or `redis.ttl`) or the write
(`redis.multi().incr().expire().exec()`) throws.  The source wraps the
whole body in try/catch and returns false — allow — on any throw. -/

structure RateWindow where
  count : Nat
  expiresAt : Nat
deriving DecidableEq, Repr

structure RedisModel where
  windows : String → Option RateWindow
  getFails : Bool
  incrFails : Bool

/-- Dynamic per-window quota of `isRateLimited`: base limit 10 per hour;
with a positive slashed count it becomes max(1, 10 - slashedCount * 2)
(JavaScript arithmetic, hence over the integers). -/
def maxRequests (slashedCount : Nat) : Int :=
  if slashedCount > 0 then max 1 (10 - (slashedCount : Int) * 2) else 10

/-- What `parseInt(await redis.get(key) or "0")` reads for a sender: the
live window counter, or 0 when the key is absent or past its expiry. -/
def currentCount (store : RedisModel) (now : Nat) (senderCommit : String) :
    Nat :=
  match store.windows ("rate_limit:" ++ senderCommit) with
  | some w => if now < w.expiresAt then w.count else 0
  | none => 0

/-- Function `isRateLimited(senderCommit, reputation)`: reads the window counter
(returning false — fail open — if the read throws); if the counter has
reached the reputation-dependent maximum, returns true without touching
the store; otherwise increments the counter with a fresh one-hour expiry
(again failing open if the write throws) and returns false. -/
def isRateLimited (store : RedisModel) (now : Nat) (senderCommit : String)
    (slashedCount : Nat) : Bool × RedisModel :=
  if store.getFails then (false, store)
  else if (currentCount store now senderCommit : Int)
      ≥ maxRequests slashedCount then (true, store)
  else if store.incrFails then (false, store)
  else
    (false,
     { store with windows := fun k =>
         (if k = "rate_limit:" ++ senderCommit then
            some { count := currentCount store now senderCommit + 1,
                   expiresAt := now + 3600 }
          else store.windows k) })

/-- Function `getRateLimitRetryTime(senderCommit)`: the remaining TTL of the
window key, clamped at 0 (Redis reports a negative TTL for an absent or
non-expiring key); 3600 if the TTL read throws. -/
def getRateLimitRetryTime (store : RedisModel) (now : Nat)
    (senderCommit : String) : Nat :=
  if store.getFails then 3600
  else
    match store.windows ("rate_limit:" ++ senderCommit) with
    | some w => if now < w.expiresAt then w.expiresAt - now else 0
    | none => 0

/-- A concrete exhausted window: the counter of "s1" sits at 10 (the base
quota) and the window does not expire until time 500. -/
def sampleStore : RedisModel :=
  { windows := fun k =>
      (if k = "rate_limit:" ++ "s1" then
        some { count := 10, expiresAt := 500 }
      else none)
    getFails := false
    incrFails := false }

/-- C7: the per-window quota never increases with the slashed count and
never drops below one request per window; and a sender who has exhausted
the quota within a live window is refused (`isRateLimited` returns true)
with a positive retry time. -/
theorem rateLimiter_quota (s1 s2 : Nat) (h12 : s1 < s2)
    (store : RedisModel) (now : Nat) (sender : String) (w : RateWindow)
    (slashedCount : Nat)
    (hget : store.getFails = false)
    (hw : store.windows ("rate_limit:" ++ sender) = some w)
    (hlive : now < w.expiresAt)
    (hfull : (w.count : Int) ≥ maxRequests slashedCount) :
    maxRequests s2 ≤ maxRequests s1
    ∧ (∀ s : Nat, 1 ≤ maxRequests s)
    ∧ (isRateLimited store now sender slashedCount).1 = true
    ∧ 0 < getRateLimitRetryTime store now sender := by
  have hcount : currentCount store now sender = w.count := by
    unfold currentCount
    rw [hw]
    simp [hlive]
  refine ⟨?_, ?_, ?_, ?_⟩
  · unfold maxRequests
    split_ifs with h2 h1 h1
    · exact max_le_max le_rfl (by omega)
    · exact max_le (by norm_num) (by omega)
    · omega
    · exact le_rfl
  · intro s
    unfold maxRequests
    split_ifs with h
    · exact le_max_left 1 _
    · norm_num
  · unfold isRateLimited
    rw [hget, hcount]
    rw [if_neg Bool.false_ne_true, if_pos hfull]
  · unfold getRateLimitRetryTime
    rw [hget, if_neg Bool.false_ne_true, hw]
    simp only [hlive, if_true, ite_true]
    omega

/-- Witness for C7: slashed counts 0 and 1 give quotas 10 and 8, and the
exhausted concrete window of `sampleStore` at time 100 is refused with
retry time 400. -/
theorem rateLimiter_quota_witness :
    maxRequests 1 ≤ maxRequests 0
    ∧ (∀ s : Nat, 1 ≤ maxRequests s)
    ∧ (isRateLimited sampleStore 100 "s1" 0).1 = true
    ∧ 0 < getRateLimitRetryTime sampleStore 100 "s1" :=
  rateLimiter_quota 0 1 (by decide) sampleStore 100 "s1"
    { count := 10, expiresAt := 500 } 0 (by rfl) (by simp [sampleStore])
    (by decide) (by norm_num [maxRequests])

/-- C8: the rate limiter fails open on backing-store unavailability: if
the counter read throws, `isRateLimited` returns false (allowed) with the
store untouched, and if the increment throws on the allow path the
request is still allowed. -/
theorem rateLimiter_fails_open (store : RedisModel) (now : Nat)
    (sender : String) (slashedCount : Nat) :
    (store.getFails = true →
      isRateLimited store now sender slashedCount = (false, store))
    ∧ (store.incrFails = true →
      (currentCount store now sender : Int) < maxRequests slashedCount →
      isRateLimited store now sender slashedCount = (false, store)) := by
  constructor
  · intro hget
    unfold isRateLimited
    rw [if_pos hget]
  · intro hincr hlt
    unfold isRateLimited
    by_cases hget : store.getFails = true
    · rw [if_pos hget]
    · rw [if_neg hget, if_neg (not_le.mpr hlt), if_pos hincr]

/-- Witness for C8: with the read failing, a request from the exhausted
window is still allowed. -/
theorem rateLimiter_fails_open_witness :
    isRateLimited
      { windows := sampleStore.windows, getFails := true,
        incrFails := false } 100 "s1" 0
    = (false,
       { windows := sampleStore.windows, getFails := true,
         incrFails := false }) :=
  (rateLimiter_fails_open
    { windows := sampleStore.windows, getFails := true, incrFails := false }
    100 "s1" 0).1 (by rfl)

/-- C10: a denied request consumes no quota.  With the backing store
available, when the window counter has already reached the quota the
limiter refuses the request and returns the store unchanged; the counter
is incremented (with a fresh one-hour expiry) only on the allow path. -/
theorem rateLimiter_denied_no_consume (store : RedisModel) (now : Nat)
    (sender : String) (slashedCount : Nat)
    (hget : store.getFails = false) :
    ((currentCount store now sender : Int) ≥ maxRequests slashedCount →
      isRateLimited store now sender slashedCount = (true, store))
    ∧ ((currentCount store now sender : Int) < maxRequests slashedCount →
      store.incrFails = false →
      (isRateLimited store now sender slashedCount).1 = false
      ∧ (isRateLimited store now sender slashedCount).2.windows
          ("rate_limit:" ++ sender)
        = some { count := currentCount store now sender + 1,
                 expiresAt := now + 3600 }
      ∧ (∀ k : String, k ≠ "rate_limit:" ++ sender →
          (isRateLimited store now sender slashedCount).2.windows k
            = store.windows k)) := by
  have hg : ¬ store.getFails = true := by
    rw [hget]
    exact Bool.false_ne_true
  constructor
  · intro hge
    unfold isRateLimited
    rw [if_neg hg, if_pos hge]
  · intro hlt hincr
    have hi : ¬ store.incrFails = true := by
      rw [hincr]
      exact Bool.false_ne_true
    unfold isRateLimited
    rw [if_neg hg, if_neg (not_le.mpr hlt), if_neg hi]
    refine ⟨rfl, by simp, fun k hk => by simp [hk]⟩

/-- Witness for C10: the exhausted window of `sampleStore` is refused
with the store unchanged. -/
theorem rateLimiter_denied_no_consume_witness :
    isRateLimited sampleStore 100 "s1" 0 = (true, sampleStore) :=
  (rateLimiter_denied_no_consume sampleStore 100 "s1" 0 (by rfl)).1
    (by norm_num [currentCount, sampleStore, maxRequests])

/-! ## Bond verification and message forwarding (C9)

Embedding of `verifyBondForMessage` and `forwardMessage` from
`src/relay/RelayService.ts` lines 44-154.  The external calls inside the
try block (`hasActiveBond` and `getSenderReputation` on the escrow
contract) can throw; they are modelled as `Except`-valued oracle fields of
the environment.  `isRateLimited` and `verifyMessageSignature` catch
internally and return a Bool (the former fails open, see C8).  The
TypeScript catch handler returns a `BondVerificationResult` with
`verified = false` and reason VERIFICATION_ERROR instead of rethrowing. -/

inductive StoreError where
  | Unavailable
deriving DecidableEq, Repr

structure MessagePayload where
  content : String
  senderCommit : String
  cardId : String
  senderAddress : String
  signature : String
  timestamp : Nat
deriving DecidableEq, Repr

structure BondVerificationResult where
  verified : Bool
  reason : Option String
deriving DecidableEq, Repr

structure VerifyEnv where
  hasActiveBond : Except StoreError Bool
  getSenderReputation : Except StoreError Reputation
  rateLimited : Bool
  messageValid : Bool

/-- Function `verifyBondForMessage(cardId, senderCommit, messagePayload)`: inside
a try block, query `hasActiveBond` (no active bond gives NO_ACTIVE_BOND),
query the sender reputation, apply the rate limiter (RATE_LIMITED),
verify the message signature (INVALID_SIGNATURE), and only then return a
verified result; any exception from the contract queries is caught and
turned into an unverified result with reason VERIFICATION_ERROR. -/
def verifyBondForMessage (env : VerifyEnv) : BondVerificationResult :=
  match env.hasActiveBond with
  | Except.error _ => { verified := false, reason := some "VERIFICATION_ERROR" }
  | Except.ok active =>
    if active = false then
      { verified := false, reason := some "NO_ACTIVE_BOND" }
    else
      match env.getSenderReputation with
      | Except.error _ =>
          { verified := false, reason := some "VERIFICATION_ERROR" }
      | Except.ok _ =>
        if env.rateLimited then
          { verified := false, reason := some "RATE_LIMITED" }
        else if env.messageValid = false then
          { verified := false, reason := some "INVALID_SIGNATURE" }
        else
          { verified := true, reason := none }

structure Evidence where
  contentFingerprint : String
  timestamp : Nat
  transportSignature : String
  senderCommit : String
  cardId : String
deriving DecidableEq, Repr

/-- Side-effect log of the forwarding path: stored evidence records,
delivered messages, and issued receipts.  `storeFails` says whether the
evidence write throws. -/
structure ForwardState where
  evidence : List (String × Evidence)
  delivered : List MessagePayload
  receipts : List String
  storeFails : Bool

structure ForwardingResult where
  success : Bool
  reason : Option String
  evidenceHash : Option String
deriving DecidableEq, Repr

/-- Function `forwardMessage(messagePayload, verificationResult)`: if the
verification result is not verified, return success = false with the
verification reason, performing no side effects; otherwise store the
evidence record, deliver to the recipient and issue the two receipts
(FORWARDING_ERROR if the evidence write throws).  Hashing is an abstract
parameter as elsewhere. -/
def forwardMessage (sha256hex : String → String) (now : Nat)
    (st : ForwardState) (payload : MessagePayload)
    (vr : BondVerificationResult) : ForwardingResult × ForwardState :=
  if vr.verified = false then
    ({ success := false, reason := vr.reason, evidenceHash := none }, st)
  else if st.storeFails then
    ({ success := false, reason := some "FORWARDING_ERROR",
       evidenceHash := none }, st)
  else
    ({ success := true, reason := none,
       evidenceHash := some (sha256hex (payload.content ++ payload.senderCommit ++ payload.cardId ++ toString now)) },
     { st with
       evidence := (sha256hex (payload.content ++ payload.senderCommit ++ payload.cardId ++ toString now),
         { contentFingerprint := sha256hex payload.content,
           timestamp := now, transportSignature := payload.signature,
           senderCommit := payload.senderCommit,
           cardId := payload.cardId }) :: st.evidence
       delivered := payload :: st.delivered
       receipts := ("SENDER_RECEIPT:" ++ sha256hex payload.content)
         :: ("RECIPIENT_RECEIPT:" ++ sha256hex payload.content)
         :: st.receipts })

/-- C9: `verifyBondForMessage` is total and fail-closed — when either
contract query throws it returns an unverified result with reason
VERIFICATION_ERROR rather than propagating the exception (and when it
reports verified = true, both queries succeeded) — and `forwardMessage`
given an unverified result returns success = false with the state
untouched: no evidence stored, nothing delivered, no receipts issued. -/
theorem verify_fail_closed_forward_gated (env : VerifyEnv)
    (sha256hex : String → String) (now : Nat) (st : ForwardState)
    (payload : MessagePayload) (vr : BondVerificationResult)
    (e : StoreError) (hunv : vr.verified = false) :
    (env.hasActiveBond = Except.error e →
      verifyBondForMessage env
        = { verified := false, reason := some "VERIFICATION_ERROR" })
    ∧ (env.hasActiveBond = Except.ok true →
       env.getSenderReputation = Except.error e →
      verifyBondForMessage env
        = { verified := false, reason := some "VERIFICATION_ERROR" })
    ∧ ((verifyBondForMessage env).verified = true →
        (env.hasActiveBond).isOk = true
        ∧ (env.getSenderReputation).isOk = true)
    ∧ forwardMessage sha256hex now st payload vr
        = ({ success := false, reason := vr.reason, evidenceHash := none },
           st) := by
  refine ⟨?_, ?_, ?_, ?_⟩
  · intro h
    unfold verifyBondForMessage
    rw [h]
  · intro h1 h2
    unfold verifyBondForMessage
    rw [h1, h2]
    rfl
  · intro hv
    unfold verifyBondForMessage at hv
    revert hv
    rcases env.hasActiveBond with e1 | active
    · intro hv
      simp at hv
    · rcases env.getSenderReputation with e2 | rep
      · rcases active with _ | _
        · intro hv
          simp at hv
        · intro hv
          simp at hv
      · rcases active with _ | _
        · intro hv
          simp at hv
        · intro hv
          exact ⟨rfl, rfl⟩
  · unfold forwardMessage
    rw [if_pos hunv]

/-- Witness for C9: a throwing `hasActiveBond` query yields the
VERIFICATION_ERROR result, and forwarding an unverified result is a
no-op failure. -/
theorem verify_fail_closed_forward_gated_witness :
    (verifyBondForMessage
        { hasActiveBond := Except.error StoreError.Unavailable,
          getSenderReputation := Except.error StoreError.Unavailable,
          rateLimited := false, messageValid := true }
      = { verified := false, reason := some "VERIFICATION_ERROR" })
    ∧ forwardMessage id 0
        { evidence := [], delivered := [], receipts := [],
          storeFails := false }
        { content := "hello", senderCommit := "s1", cardId := "card1",
          senderAddress := "addr", signature := "sig", timestamp := 0 }
        { verified := false, reason := some "NO_ACTIVE_BOND" }
      = ({ success := false, reason := some "NO_ACTIVE_BOND",
           evidenceHash := none },
         { evidence := [], delivered := [], receipts := [],
           storeFails := false }) := by
  have h := verify_fail_closed_forward_gated
    { hasActiveBond := Except.error StoreError.Unavailable,
      getSenderReputation := Except.error StoreError.Unavailable,
      rateLimited := false, messageValid := true }
    id 0
    { evidence := [], delivered := [], receipts := [], storeFails := false }
    { content := "hello", senderCommit := "s1", cardId := "card1",
      senderAddress := "addr", signature := "sig", timestamp := 0 }
    { verified := false, reason := some "NO_ACTIVE_BOND" }
    StoreError.Unavailable (by rfl)
  exact ⟨h.1 (by rfl), h.2.2.2⟩

end SelectConnect
